import Mathlib

/-!
Verification of the HRI_UserStudy repository: a shallow embedding of
`math_questions.py` (the interactive multiplication quiz) and of the
keyboard-to-actuator reducer and action queue in `remote_control.py`
(`Subroutines` and `RemoteControlVector`), together with proofs of the
documented behavioural properties.
-/

namespace Quiz

/-- One row of `questions.csv`: columns `term1,term2,answer`. -/
structure QuizRow where
  term1 : Int
  term2 : Int
  answer : Int
deriving DecidableEq, Repr

/-- What the quiz prints for one answered row: `'Correct!'`, `'Incorrect'`,
or `"Please input an integer"` (the `ValueError` branch for non-`'q'` input). -/
inductive QuizOutput where
  | correct
  | incorrect
  | inputError
deriving DecidableEq, Repr

/-- Embedding of Python `int(answer)` on the user's input string: strips
surrounding whitespace, accepts an optional sign followed by one or more
decimal digits, and raises `ValueError` (here: `none`) otherwise.
(Pythonic underscore separators between digits are not modelled; no input
in this development contains one.) -/
def pyInt (s : String) : Option Int :=
  let t := ((s.data.dropWhile Char.isWhitespace).reverse.dropWhile Char.isWhitespace).reverse
  let core : Int × List Char :=
    match t with
    | '-' :: rest => (-1, rest)
    | '+' :: rest => (1, rest)
    | l => (1, l)
  if core.2 = [] then none
  else if core.2.all Char.isDigit then
    some (core.1 * (core.2.foldl (fun acc c => acc * 10 + (Int.ofNat (c.toNat - '0'.toNat))) 0))
  else none

/-- Result of one iteration of the `for index, row in df.iterrows()` loop body:
either the loop continues with an updated score after printing a label, or the
`break` statement ran (on input `'q'`) carrying the score out of the loop. -/
inductive StepResult where
  | cont (out : QuizOutput) (score : Int)
  | brk (score : Int)
deriving DecidableEq, Repr

/-- One iteration of the quiz loop body in `run_program`:
`int(answer) == int(row['answer'])` scores the row; a `ValueError` with
input `'q'` breaks, any other `ValueError` prints the integer reminder. -/
def quizStep (score : Int) (row : QuizRow) (answer : String) : StepResult :=
  match pyInt answer with
  | some n => if n = row.answer then .cont .correct (score + 1) else .cont .incorrect score
  | none => if answer = "q" then .brk score else .cont .inputError score

/-- The quiz loop of `run_program`, fed one input string per row; returns the
final score (the value written to the log file and printed as
`"Final score:"`) and the per-row printed labels in order. -/
def quizRun (score : Int) : List (QuizRow × String) → Int × List QuizOutput
  | [] => (score, [])
  | (row, answer) :: rest =>
    match quizStep score row answer with
    | .cont out s =>
      let r := quizRun s rest
      (r.1, out :: r.2)
    | .brk s => (s, [])

end Quiz

namespace RC

/-- The robot operations a `Subroutines` routine delegates to the Vector SDK
(`robot.world.*` / `robot.behavior.*` / reading `robot.pose`). -/
inductive RobotOp where
  | connectCube
  | flashCubeLights
  | pickUpCube
  | driveToCharger
  | rollCube
  | putCubeDown
  | savePose
  | goToSavedPose
deriving DecidableEq, Repr

/-- External robot state visible to the routines, and which SDK calls raise:
`connectedCube` models the truthiness of `robot.world.connected_light_cube`,
`raisesOn op` models the delegated SDK call raising an exception. -/
structure RobotEnv where
  connectedCube : Bool
  raisesOn : RobotOp → Bool

/-- Attempt one delegated SDK call: it either raises or performs the operation. -/
def attempt (env : RobotEnv) (op : RobotOp) : Except String (List RobotOp) :=
  if env.raisesOn op then .error "exception" else .ok [op]

/-- `Subroutines.routines`, the fixed list of routine names (also
`RemoteControlVector.anim_names`). -/
def anim_names : List String :=
  ["connect_to_cube", "pick_up_cube", "drive_to_charger", "roll_cube",
   "flash_cube_lights", "save_pose", "go_to_saved_pose", "put_cube_down"]

/-- The dispatch chain in the `try:` block of `Subroutines.run_subroutine`:
which robot operations the named routine performs against the environment,
or the exception it raises. `pick_up_cube` / `roll_cube` / `put_cube_down`
are guarded by `if self.robot.world.connected_light_cube:`; an unmatched key
falls to the `else:` warning branch and performs nothing. -/
def routine_body (env : RobotEnv) (key : String) : Except String (List RobotOp) :=
  if key = "pick_up_cube" then
    (if env.connectedCube then attempt env .pickUpCube else .ok [])
  else if key = "connect_to_cube" then attempt env .connectCube
  else if key = "drive_to_charger" then attempt env .driveToCharger
  else if key = "roll_cube" then
    (if env.connectedCube then attempt env .rollCube else .ok [])
  else if key = "flash_cube_lights" then attempt env .flashCubeLights
  else if key = "save_pose" then attempt env .savePose
  else if key = "go_to_saved_pose" then attempt env .goToSavedPose
  else if key = "put_cube_down" then
    (if env.connectedCube then attempt env .putCubeDown else .ok [])
  else .ok []

/-- `Subroutines.run_subroutine(key)`: the `try:` body dispatches on the key,
`except Exception` swallows any exception, and the `finally:` block
increments `self.runs` and returns `True` on every path. Result:
(new `runs` counter, returned value, robot operations performed). -/
def run_subroutine (runs : Nat) (env : RobotEnv) (key : String) :
    Nat × Bool × List RobotOp :=
  let performed :=
    match routine_body env key with
    | .ok ops => ops
    | .error _ => []
  (runs + 1, true, performed)

/-- A queued one-shot action: the `(callable, argument)` pairs that
`handle_key` enqueues, with the argument resolved at enqueue time. -/
inductive Action where
  | runSubroutine (anim_name : String)
  | sayText (text : String)
deriving DecidableEq, Repr

/-- `RemoteControlVector.queue_action(new_action)`: pop the head first when
the queue already holds more than 10 entries, then append. -/
def queue_action (q : List Action) (new_action : Action) : List Action :=
  (if q.length > 10 then q.drop 1 else q) ++ [new_action]

/-- `RemoteControlVector.update()`: when the queue is non-empty (the Python
guard `self.action_queue and len(self.action_queue) > 0`), invoke the head
with its stored argument and pop it when the invocation returns a truthy
value. `invoke` abstracts the stored callable's result. Result:
(queue after the tick, actions invoked this tick). -/
def update (invoke : Action → Bool) (q : List Action) :
    List Action × List Action :=
  match q with
  | [] => ([], [])
  | queued :: rest =>
    if invoke queued then (rest, [queued]) else (queued :: rest, [queued])

/-- A motor command sent to the actuator collaborator (`self.vector.motors`). -/
inductive MotorCmd where
  | setLift (v : Int)
  | setHead (v : Rat)
  | setWheels (l r l4 r4 : Int)
deriving DecidableEq, Repr

/-- The mutable fields of `RemoteControlVector` that the key-intent reducer
reads and writes. The key flags start as the integer `0` and are overwritten
with booleans by `handle_key`; only their truthiness and their 0/1 value in
arithmetic matter, so they are carried as `Bool`. -/
structure RCState where
  last_lift : Option Int
  last_head : Option Rat
  last_wheels : Option (Int × Int × Int × Int)
  drive_forwards : Bool
  drive_back : Bool
  turn_left : Bool
  turn_right : Bool
  lift_up : Bool
  lift_down : Bool
  head_up : Bool
  head_down : Bool
  go_fast : Bool
  go_slow : Bool
  mouse_dir : Int
  anim_index_for_key : List Nat
  action_queue : List Action
  text_to_say : String
deriving DecidableEq, Repr

/-- Python truthiness of `self.last_lift` (an `Optional[int]`): `None` and
`0` are falsy. -/
def pyTruthyOptInt : Option Int → Bool
  | none => false
  | some v => decide (v ≠ 0)

/-- Python truthiness of `self.last_head` (an `Optional[float]`): `None` and
`0.0` are falsy. -/
def pyTruthyOptRat : Option Rat → Bool
  | none => false
  | some v => decide (v ≠ 0)

/-- Python truthiness of `self.last_wheels` (an optional 4-tuple): only
`None` is falsy — a tuple of zeros is still truthy. -/
def pyTruthyOptWheels : Option (Int × Int × Int × Int) → Bool
  | none => false
  | some _ => true

/-- Python `int(b)` for a key flag: the 0/1 value used in setpoint formulae. -/
def boolInt (b : Bool) : Int := if b then 1 else 0

/-- Character code, as Python's `ord`. -/
def ch (c : Char) : Nat := c.toNat

/-- `RemoteControlVector.pick_speed(fast_speed, mid_speed, slow_speed)`:
`go_fast` without `go_slow` returns the fast speed; otherwise `elif go_slow`
returns the slow speed (unreachable when `go_fast` is set); every other path
falls through to the mid speed. -/
def pick_speed {α : Type} (st : RCState) (fast_speed mid_speed slow_speed : α) : α :=
  if st.go_fast then
    (if !st.go_slow then fast_speed else mid_speed)
  else if st.go_slow then slow_speed
  else mid_speed

/-- `RemoteControlVector.update_drive_state`: set the drive/turn flag matching
the key; an unmatched key leaves `update_driving` true only when the speed
modifier changed. -/
def update_drive_state (st : RCState) (key_code : Nat) (is_key_down : Bool)
    (speed_changed : Bool) : RCState × Bool :=
  if key_code = ch 'W' then ({ st with drive_forwards := is_key_down }, true)
  else if key_code = ch 'S' then ({ st with drive_back := is_key_down }, true)
  else if key_code = ch 'A' then ({ st with turn_left := is_key_down }, true)
  else if key_code = ch 'D' then ({ st with turn_right := is_key_down }, true)
  else (st, speed_changed)

/-- `RemoteControlVector.update_lift_state`. -/
def update_lift_state (st : RCState) (key_code : Nat) (is_key_down : Bool)
    (speed_changed : Bool) : RCState × Bool :=
  if key_code = ch 'R' then ({ st with lift_up := is_key_down }, true)
  else if key_code = ch 'F' then ({ st with lift_down := is_key_down }, true)
  else (st, speed_changed)

/-- `RemoteControlVector.update_head_state`. -/
def update_head_state (st : RCState) (key_code : Nat) (is_key_down : Bool)
    (speed_changed : Bool) : RCState × Bool :=
  if key_code = ch 'T' then ({ st with head_up := is_key_down }, true)
  else if key_code = ch 'G' then ({ st with head_down := is_key_down }, true)
  else (st, speed_changed)

/-- `RemoteControlVector.update_lift`: recompute the lift velocity and send it
unless it equals a truthy `last_lift` (the short-circuit
`if self.last_lift and lift_vel == self.last_lift: return`). -/
def update_lift (st : RCState) : RCState × List MotorCmd :=
  let lift_speed : Int := pick_speed st 8 4 2
  let lift_vel : Int := (boolInt st.lift_up - boolInt st.lift_down) * lift_speed
  if pyTruthyOptInt st.last_lift && decide (st.last_lift = some lift_vel) then
    (st, [])
  else
    ({ st with last_lift := some lift_vel }, [.setLift lift_vel])

/-- `RemoteControlVector.update_head`: as `update_lift`, with float speeds. -/
def update_head (st : RCState) : RCState × List MotorCmd :=
  let head_speed : Rat := pick_speed st 2 1 (1/2)
  let head_vel : Rat := (boolInt st.head_up - boolInt st.head_down) * head_speed
  if pyTruthyOptRat st.last_head && decide (st.last_head = some head_vel) then
    (st, [])
  else
    ({ st with last_head := some head_vel }, [.setHead head_vel])

/-- `drive_dir` as computed in `update_mouse_driving`. -/
def drive_dir (st : RCState) : Int := boolInt st.drive_forwards - boolInt st.drive_back

/-- `turn_dir` as computed in `update_mouse_driving`: right minus left plus
mouse direction, negated when reversing. -/
def turn_dir (st : RCState) : Int :=
  let t := (boolInt st.turn_right - boolInt st.turn_left) + st.mouse_dir
  if drive_dir st < 0 then -t else t

/-- The `turn_speed * turn_dir` term added to the left wheel setpoint and
subtracted from the right wheel setpoint in `update_mouse_driving`. -/
def turn_component (st : RCState) : Int := pick_speed st 100 50 30 * turn_dir st

/-- `l_wheel_speed` in `update_mouse_driving`. -/
def l_wheel_speed (st : RCState) : Int :=
  drive_dir st * pick_speed st 150 75 50 + turn_component st

/-- `r_wheel_speed` in `update_mouse_driving`. -/
def r_wheel_speed (st : RCState) : Int :=
  drive_dir st * pick_speed st 150 75 50 - turn_component st

/-- `RemoteControlVector.update_mouse_driving`: recompute the wheel parameter
tuple (wheel speeds plus the ×4 auxiliary values) and send it unless it
equals a truthy `last_wheels`. -/
def update_mouse_driving (st : RCState) : RCState × List MotorCmd :=
  let l := l_wheel_speed st
  let r := r_wheel_speed st
  let wheel_params : Int × Int × Int × Int := (l, r, l * 4, r * 4)
  if pyTruthyOptWheels st.last_wheels && decide (st.last_wheels = some wheel_params) then
    (st, [])
  else
    ({ st with last_wheels := some wheel_params },
     [.setWheels l r (l * 4) (r * 4)])

/-- `RemoteControlVector.key_code_to_anim_name(key_code)`: slot index from the
key code, routine index from the per-slot table, name from `anim_names`.
Python list indexing raises `IndexError` out of range; `handle_key` only
calls this for key codes 49–56 and the stored indices are in range, so the
`getD` defaults are unreachable there. -/
def key_code_to_anim_name (st : RCState) (key_code : Nat) : String :=
  let key_num := key_code - ch '1'
  let anim_num := st.anim_index_for_key.getD key_num 0
  anim_names.getD anim_num ""

/-- The first stage of `RemoteControlVector.handle_key`: record the shift/alt
speed modifiers, detect `speed_changed`, and run the three per-axis flag
updates. Result: (state after flag updates, `update_driving`, `update_head`,
`update_lift`). -/
def handle_key_flags (st : RCState) (key_code : Nat)
    (is_shift_down is_alt_down is_key_down : Bool) :
    RCState × Bool × Bool × Bool :=
  let was_go_fast := st.go_fast
  let was_go_slow := st.go_slow
  let st0 := { st with go_fast := is_shift_down, go_slow := is_alt_down }
  let speed_changed := (was_go_fast != st0.go_fast) || (was_go_slow != st0.go_slow)
  let d := update_drive_state st0 key_code is_key_down speed_changed
  let l := update_lift_state d.1 key_code is_key_down speed_changed
  let h := update_head_state l.1 key_code is_key_down speed_changed
  (h.1, d.2, h.2, l.2)

/-- `if update_driving: self.update_mouse_driving()`. -/
def motors_drive (st : RCState) (update_driving : Bool) : RCState × List MotorCmd :=
  if update_driving then update_mouse_driving st else (st, [])

/-- `if update_head: self.update_head()`. -/
def motors_head (st : RCState) (update_head_flag : Bool) : RCState × List MotorCmd :=
  if update_head_flag then update_head st else (st, [])

/-- `if update_lift: self.update_lift()`. -/
def motors_lift (st : RCState) (update_lift_flag : Bool) : RCState × List MotorCmd :=
  if update_lift_flag then update_lift st else (st, [])

/-- The middle stage of `handle_key` ("Update driving, head and lift as
appropriate"): dispatch each dirty axis, in the source's order driving,
head, lift. -/
def handle_key_motors (st : RCState) (update_driving update_head_flag update_lift_flag : Bool) :
    RCState × List MotorCmd :=
  let m := motors_drive st update_driving
  let hd := motors_head m.1 update_head_flag
  let lf := motors_lift hd.1 update_lift_flag
  (lf.1, m.2 ++ (hd.2 ++ lf.2))

/-- The final stage of `handle_key` ("Handle any keys being released"): on
release of '1'–'8' enqueue the mapped routine, on release of space enqueue
the say-text action. -/
def handle_key_release (st : RCState) (key_code : Nat) (is_key_down : Bool) : RCState :=
  if !is_key_down then
    if ch '1' ≤ key_code ∧ key_code ≤ ch '8' then
      let a := Action.runSubroutine (key_code_to_anim_name st key_code)
      { st with action_queue := queue_action st.action_queue a }
    else if key_code = ch ' ' then
      let a := Action.sayText st.text_to_say
      { st with action_queue := queue_action st.action_queue a }
    else st
  else st

/-- `RemoteControlVector.handle_key(key_code, is_shift_down, is_alt_down,
is_key_down)`: update the speed modifiers, run the three per-axis state
updates, dispatch the dirty axes in the order driving, head, lift, and on
key release enqueue the mapped routine (keys '1'–'8') or a say-text action
(space). Result: (new state, motor commands sent this call). -/
def handle_key (st : RCState) (key_code : Nat)
    (is_shift_down is_alt_down is_key_down : Bool) : RCState × List MotorCmd :=
  let f := handle_key_flags st key_code is_shift_down is_alt_down is_key_down
  let mo := handle_key_motors f.1 f.2.1 f.2.2.1 f.2.2.2
  (handle_key_release mo.1 key_code is_key_down, mo.2)

/-- The default key-slot table built in `RemoteControlVector.__init__`:
`anim_index_for_key[kI] = anim_names.index(default_key)` for each of the 8
default routine names (all of which occur in `anim_names`; a missing name
would leave the initial `0`). -/
def default_anims_for_keys : List String :=
  ["connect_to_cube", "flash_cube_lights", "pick_up_cube", "put_cube_down",
   "roll_cube", "drive_to_charger", "save_pose", "go_to_saved_pose"]

/-- `anim_index_for_key` after `__init__`. -/
def initAnimIndexForKey : List Nat :=
  default_anims_for_keys.map fun k =>
    if anim_names.contains k then anim_names.findIdx (· = k) else 0

/-- `RemoteControlVector` state right after `__init__`. -/
def initState : RCState where
  last_lift := none
  last_head := none
  last_wheels := none
  drive_forwards := false
  drive_back := false
  turn_left := false
  turn_right := false
  lift_up := false
  lift_down := false
  head_up := false
  head_down := false
  go_fast := false
  go_slow := false
  mouse_dir := 0
  anim_index_for_key := initAnimIndexForKey
  action_queue := []
  text_to_say := "Hi I'm Vector"

/-- One inbound key event as delivered by `handle_key_event`. -/
structure KeyEvent where
  key_code : Nat
  is_shift_down : Bool
  is_alt_down : Bool
  is_key_down : Bool
deriving DecidableEq, Repr

/-- Run a sequence of key events through `handle_key`, collecting every motor
command sent, in order. -/
def runEvents (st : RCState) : List KeyEvent → RCState × List MotorCmd
  | [] => (st, [])
  | e :: evs =>
    let r := handle_key st e.key_code e.is_shift_down e.is_alt_down e.is_key_down
    let rs := runEvents r.1 evs
    (rs.1, r.2 ++ rs.2)

/-- The lift-axis dispatch trace: values of the `set_lift_motor` calls. -/
def liftOf : MotorCmd → Option Int
  | .setLift v => some v
  | _ => none

/-- The head-axis dispatch trace: values of the `set_head_motor` calls. -/
def headOf : MotorCmd → Option Rat
  | .setHead v => some v
  | _ => none

/-- The drive-axis dispatch trace: tuples of the `set_wheel_motors` calls. -/
def wheelsOf : MotorCmd → Option (Int × Int × Int × Int)
  | .setWheels l r l4 r4 => some (l, r, l4, r4)
  | _ => none

/-- The adjacency relation satisfied by every per-axis dispatch trace: the
later dispatch differs from the earlier one unless the earlier value was
falsy (so the debounce guard could not suppress). -/
def axisP {V : Type} (truthy : V → Bool) (a b : V) : Prop :=
  truthy a = false ∨ b ≠ a

/-- What one `handle_key` call (or one of its stages) does to a single axis,
viewed through the axis's last-sent field `proj` and command projection
`cmdOf`: either it leaves the last-sent value alone and dispatches nothing
on the axis, or it dispatches exactly one value, records it as last-sent,
and that value differs from any truthy previously-recorded value. -/
def AxisSpec {V : Type} (proj : RCState → Option V) (cmdOf : MotorCmd → Option V)
    (truthy : V → Bool) (st : RCState) (res : RCState × List MotorCmd) : Prop :=
  (proj res.1 = proj st ∧ res.2.filterMap cmdOf = []) ∨
  (∃ v, proj res.1 = some v ∧ res.2.filterMap cmdOf = [v] ∧
    ∀ w, proj st = some w → truthy w = true → v ≠ w)

end RC

namespace Quiz

/-- C3 (counterexample): on rows (3,7,21) and (4,6,20) with inputs "21" then
"20", `run_program`'s loop does NOT produce a final score of 1 with
'Correct!' then 'Incorrect': the comparison is against the stored `answer`
column (20), which the input "20" matches. -/
theorem quiz_two_rows_claim_false :
    ¬ (quizRun 0 [(⟨3, 7, 21⟩, "21"), (⟨4, 6, 20⟩, "20")]
        = (1, [QuizOutput.correct, QuizOutput.incorrect])) := by
  decide

/-- C3 (amended): on rows (3,7,21) and (4,6,20) with inputs "21" then "20",
the quiz compares each input against the row's stored `answer` column, so
both rows print 'Correct!' and the final score is 2. -/
theorem quiz_two_rows_score :
    quizRun 0 [(⟨3, 7, 21⟩, "21"), (⟨4, 6, 20⟩, "20")]
      = (2, [QuizOutput.correct, QuizOutput.correct]) := by
  decide

/-- C9: entering "q" on any row (any accumulated score, any remaining rows)
terminates the question loop immediately: no label is printed for that row
or any later row, the score is not incremented, and the score accumulated so
far is the final score. -/
theorem quiz_q_breaks (score : Int) (row : QuizRow) (rest : List (QuizRow × String)) :
    quizRun score ((row, "q") :: rest) = (score, []) := by
  have hq : pyInt "q" = none := by decide
  simp [quizRun, quizStep, hq]

end Quiz

namespace RC

/-- C4: `pick_speed` returns the fast value exactly when the fast modifier is
set and the slow modifier is not, the slow value exactly when the slow
modifier is set and the fast modifier is not, and the mid value otherwise —
in particular when both modifiers are set. -/
theorem pick_speed_spec {α : Type} (st : RCState) (fast_speed mid_speed slow_speed : α) :
    pick_speed st fast_speed mid_speed slow_speed =
      if st.go_fast ∧ ¬ (st.go_slow = true) then fast_speed
      else if st.go_slow ∧ ¬ (st.go_fast = true) then slow_speed
      else mid_speed := by
  cases hf : st.go_fast <;> cases hs : st.go_slow <;> simp [pick_speed, hf, hs]

/-- C5: one `update()` call invokes at most one queued action — the head,
with its stored argument — and pops it exactly when the invocation reports
success; on an empty queue `update()` invokes nothing and leaves the queue
unchanged (it is a total function: no exception is raised). -/
theorem update_spec (invoke : Action → Bool) (q : List Action) :
    (update invoke q).2.length ≤ 1 ∧
    (q = [] → update invoke q = ([], [])) ∧
    (∀ (a : Action) (rest : List Action), q = a :: rest →
      (update invoke q).2 = [a] ∧
      (update invoke q).1 = (if invoke a then rest else q)) := by
  cases q with
  | nil => simp [update]
  | cons a rest =>
    by_cases h : invoke a <;> simp [update, h]

/-- Witness for C5 at a concrete queue and invoker. -/
theorem update_spec_witness :
    (update (fun _ => true) [Action.sayText "x"]).2 = [Action.sayText "x"] ∧
    (update (fun _ => true) [Action.sayText "x"]).1 = [] := by
  have h := (update_spec (fun _ => true) [Action.sayText "x"]).2.2
      (Action.sayText "x") [] rfl
  exact ⟨h.1, by simpa using h.2⟩

/-- C7: under the default key-slot mapping, a key-release event for numeric
key '3' (key code 51) enqueues exactly one action — via one `queue_action`
call — and that action resolves to the routine name "pick_up_cube". -/
theorem key3_release_enqueues_pickup (q : List Action) :
    (handle_key { initState with action_queue := q } (ch '3') false false false).1.action_queue
      = queue_action q (Action.runSubroutine "pick_up_cube") := rfl

/-- Helper: one `queue_action` call keeps the queue length at most 11. -/
theorem queue_action_length_le {q : List Action} (a : Action) (h : q.length ≤ 11) :
    (queue_action q a).length ≤ 11 := by
  unfold queue_action
  split <;> simp [List.length_drop] <;> omega

/-- Helper: any sequence of `queue_action` calls keeps the length at most 11. -/
theorem foldl_queue_action_length (acts : List Action) :
    ∀ q : List Action, q.length ≤ 11 → (List.foldl queue_action q acts).length ≤ 11 := by
  induction acts with
  | nil => intro q h; simpa using h
  | cons a acts ih => intro q h; exact ih _ (queue_action_length_le a h)

/-- C1 (counterexample): eleven `queue_action` calls starting from the empty
queue leave eleven pending entries — the queue does hold more than 10, and
the tenth enqueue evicted nothing. -/
theorem queue_capacity_claim_false :
    ¬ ((List.foldl queue_action []
        [Action.sayText "0", Action.sayText "1", Action.sayText "2", Action.sayText "3",
         Action.sayText "4", Action.sayText "5", Action.sayText "6", Action.sayText "7",
         Action.sayText "8", Action.sayText "9", Action.sayText "10"]).length ≤ 10) := by
  decide

/-- C1 (amended): for every sequence of `queue_action` calls starting from
the empty queue the action queue never holds more than 11 entries, and
enqueueing when 11 entries are already pending evicts the oldest pending
action before the new one is appended (the `len > 10` guard fires first at
length 11). -/
theorem queue_capacity_eleven (acts : List Action) :
    (List.foldl queue_action [] acts).length ≤ 11 ∧
    (∀ (q : List Action) (a : Action), q.length = 11 →
      queue_action q a = q.drop 1 ++ [a]) := by
  refine ⟨foldl_queue_action_length acts [] (by simp), ?_⟩
  intro q a h
  unfold queue_action
  rw [if_pos (by omega)]

/-- Witness for C1's amended theorem at a concrete 11-entry queue. -/
theorem queue_capacity_eleven_witness :
    (List.foldl queue_action [] ([] : List Action)).length ≤ 11 ∧
    queue_action
        [Action.sayText "0", Action.sayText "1", Action.sayText "2", Action.sayText "3",
         Action.sayText "4", Action.sayText "5", Action.sayText "6", Action.sayText "7",
         Action.sayText "8", Action.sayText "9", Action.sayText "10"]
        (Action.sayText "11")
      = [Action.sayText "0", Action.sayText "1", Action.sayText "2", Action.sayText "3",
         Action.sayText "4", Action.sayText "5", Action.sayText "6", Action.sayText "7",
         Action.sayText "8", Action.sayText "9", Action.sayText "10"].drop 1
        ++ [Action.sayText "11"] :=
  ⟨(queue_capacity_eleven []).1,
   (queue_capacity_eleven []).2
     [Action.sayText "0", Action.sayText "1", Action.sayText "2", Action.sayText "3",
      Action.sayText "4", Action.sayText "5", Action.sayText "6", Action.sayText "7",
      Action.sayText "8", Action.sayText "9", Action.sayText "10"]
     (Action.sayText "11") (by decide)⟩

/-- C10: `queue_action` is total and never discards the inserted action:
after any reachable queue state, the new action is the last (newest) entry,
the retained older entries keep their relative order (the queue minus its
last entry is the old queue, minus its oldest entry when eviction fired),
and the length stays at most 11. -/
theorem queue_action_spec (acts : List Action) (a : Action) :
    (queue_action (List.foldl queue_action [] acts) a).getLast? = some a ∧
    (queue_action (List.foldl queue_action [] acts) a).dropLast
      = (if 10 < (List.foldl queue_action [] acts).length
          then (List.foldl queue_action [] acts).drop 1
          else List.foldl queue_action [] acts) ∧
    (queue_action (List.foldl queue_action [] acts) a).length ≤ 11 := by
  refine ⟨?_, ?_, queue_action_length_le a (foldl_queue_action_length acts [] (by simp))⟩
  · unfold queue_action
    exact List.getLast?_concat _
  · unfold queue_action
    exact List.dropLast_concat

/-- C8: with the turn flags, mouse direction and speed modifiers held fixed,
the turn contribution to the wheel setpoints (`turn_speed * turn_dir`, added
to the left wheel and subtracted from the right) under a negative drive
intent is the negation of the turn contribution under a non-negative drive
intent. -/
theorem reverse_inverts_turn (st1 st2 : RCState)
    (hl : st1.turn_left = st2.turn_left) (hr : st1.turn_right = st2.turn_right)
    (hm : st1.mouse_dir = st2.mouse_dir)
    (hf : st1.go_fast = st2.go_fast) (hs : st1.go_slow = st2.go_slow)
    (hneg : drive_dir st1 < 0) (hpos : 0 ≤ drive_dir st2) :
    turn_component st1 = - turn_component st2 := by
  unfold turn_component turn_dir pick_speed
  rw [if_pos hneg, if_neg (not_lt.mpr hpos), hl, hr, hm, hf, hs]
  ring

/-- Witness for C8: reversing (S held) against the idle state. -/
theorem reverse_inverts_turn_witness :
    turn_component { initState with drive_back := true } = - turn_component initState :=
  reverse_inverts_turn { initState with drive_back := true } initState
    rfl rfl rfl rfl rfl (by decide) (by decide)

/-- C6: `run_subroutine` is total (every exception from a routine body is
caught; the `finally` block always runs): for every routine name and robot
environment it increments the run counter by exactly one and returns `True`,
and an unknown routine name performs no robot operation. -/
theorem run_subroutine_spec (runs : Nat) (env : RobotEnv) (key : String) :
    (run_subroutine runs env key).1 = runs + 1 ∧
    (run_subroutine runs env key).2.1 = true ∧
    (key ∉ anim_names → (run_subroutine runs env key).2.2 = []) := by
  refine ⟨rfl, rfl, ?_⟩
  intro h
  simp only [anim_names, List.mem_cons, List.not_mem_nil, or_false, not_or] at h
  obtain ⟨h1, h2, h3, h4, h5, h6, h7, h8⟩ := h
  simp [run_subroutine, routine_body, h1, h2, h3, h4, h5, h6, h7, h8]

/-- Witness for C6 at a concrete unknown routine name in an environment where
every SDK call would raise. -/
theorem run_subroutine_spec_witness :
    (run_subroutine 0 ⟨true, fun _ => true⟩ "warp").1 = 1 ∧
    (run_subroutine 0 ⟨true, fun _ => true⟩ "warp").2.1 = true ∧
    (run_subroutine 0 ⟨true, fun _ => true⟩ "warp").2.2 = [] := by
  have h := run_subroutine_spec 0 ⟨true, fun _ => true⟩ "warp"
  exact ⟨h.1, h.2.1, h.2.2 (by decide)⟩

end RC

namespace RC

/-- Helper: prepending a stage that dispatches nothing on an axis and leaves
its last-sent field alone preserves that axis's spec. -/
theorem axisSpec_glue {V : Type} {proj : RCState → Option V} {cmdOf : MotorCmd → Option V}
    {truthy : V → Bool} {st stMid : RCState} {pre : List MotorCmd}
    {res : RCState × List MotorCmd}
    (hmid : proj stMid = proj st) (hpre : pre.filterMap cmdOf = [])
    (h : AxisSpec proj cmdOf truthy stMid res) :
    AxisSpec proj cmdOf truthy st (res.1, pre ++ res.2) := by
  rcases h with ⟨h1, h2⟩ | ⟨v, h1, h2, h3⟩
  · exact Or.inl ⟨by rw [h1, hmid], by simp [List.filterMap_append, hpre, h2]⟩
  · refine Or.inr ⟨v, h1, by simp [List.filterMap_append, hpre, h2], ?_⟩
    intro w hw ht
    exact h3 w (by rw [hmid]; exact hw) ht

/-- Helper: changing the base state to one with the same last-sent field
preserves an axis spec. -/
theorem axisSpec_base {V : Type} {proj : RCState → Option V} {cmdOf : MotorCmd → Option V}
    {truthy : V → Bool} {st stMid : RCState} {res : RCState × List MotorCmd}
    (h : AxisSpec proj cmdOf truthy stMid res) (hmid : proj stMid = proj st) :
    AxisSpec proj cmdOf truthy st res := by
  rcases h with ⟨h1, h2⟩ | ⟨v, h1, h2, h3⟩
  · exact Or.inl ⟨by rw [h1, hmid], h2⟩
  · exact Or.inr ⟨v, h1, h2, fun w hw ht => h3 w (by rw [hmid]; exact hw) ht⟩

/-- Helper: appending a stage that dispatches nothing on an axis and leaves
its last-sent field alone preserves that axis's spec. -/
theorem axisSpec_post {V : Type} {proj : RCState → Option V} {cmdOf : MotorCmd → Option V}
    {truthy : V → Bool} {st st2 : RCState} {post : List MotorCmd}
    {res : RCState × List MotorCmd}
    (h : AxisSpec proj cmdOf truthy st res) (hp : proj st2 = proj res.1)
    (hpost : post.filterMap cmdOf = []) :
    AxisSpec proj cmdOf truthy st (st2, res.2 ++ post) := by
  rcases h with ⟨h1, h2⟩ | ⟨v, h1, h2, h3⟩
  · exact Or.inl ⟨by rw [hp, h1], by simp [List.filterMap_append, h2, hpost]⟩
  · exact Or.inr ⟨v, by rw [hp, h1], by simp [List.filterMap_append, h2, hpost], h3⟩

/-- Helper: a final state transform preserving the last-sent field preserves
an axis spec. -/
theorem axisSpec_mapState {V : Type} {proj : RCState → Option V} {cmdOf : MotorCmd → Option V}
    {truthy : V → Bool} {st st2 : RCState} {res : RCState × List MotorCmd}
    (h : AxisSpec proj cmdOf truthy st res) (hp : proj st2 = proj res.1) :
    AxisSpec proj cmdOf truthy st (st2, res.2) := by
  rcases h with ⟨h1, h2⟩ | ⟨v, h1, h2, h3⟩
  · exact Or.inl ⟨by rw [hp, h1], h2⟩
  · exact Or.inr ⟨v, by rw [hp, h1], h2, h3⟩

/-- `update_drive_state` touches only the drive/turn flags. -/
theorem update_drive_state_lasts (st : RCState) (k : Nat) (d c : Bool) :
    (update_drive_state st k d c).1.last_lift = st.last_lift ∧
    (update_drive_state st k d c).1.last_head = st.last_head ∧
    (update_drive_state st k d c).1.last_wheels = st.last_wheels := by
  simp only [update_drive_state]
  repeat' split
  all_goals exact ⟨rfl, rfl, rfl⟩

/-- `update_lift_state` touches only the lift flags. -/
theorem update_lift_state_lasts (st : RCState) (k : Nat) (d c : Bool) :
    (update_lift_state st k d c).1.last_lift = st.last_lift ∧
    (update_lift_state st k d c).1.last_head = st.last_head ∧
    (update_lift_state st k d c).1.last_wheels = st.last_wheels := by
  simp only [update_lift_state]
  repeat' split
  all_goals exact ⟨rfl, rfl, rfl⟩

/-- `update_head_state` touches only the head flags. -/
theorem update_head_state_lasts (st : RCState) (k : Nat) (d c : Bool) :
    (update_head_state st k d c).1.last_lift = st.last_lift ∧
    (update_head_state st k d c).1.last_head = st.last_head ∧
    (update_head_state st k d c).1.last_wheels = st.last_wheels := by
  simp only [update_head_state]
  repeat' split
  all_goals exact ⟨rfl, rfl, rfl⟩

/-- The flag stage of `handle_key` never touches a last-sent field. -/
theorem handle_key_flags_lasts (st : RCState) (k : Nat) (sh al dn : Bool) :
    (handle_key_flags st k sh al dn).1.last_lift = st.last_lift ∧
    (handle_key_flags st k sh al dn).1.last_head = st.last_head ∧
    (handle_key_flags st k sh al dn).1.last_wheels = st.last_wheels := by
  refine ⟨?_, ?_, ?_⟩ <;>
    simp [handle_key_flags, update_head_state_lasts, update_lift_state_lasts,
      update_drive_state_lasts]

/-- The key-release stage of `handle_key` touches only the action queue. -/
theorem handle_key_release_lasts (st : RCState) (k : Nat) (dn : Bool) :
    (handle_key_release st k dn).last_lift = st.last_lift ∧
    (handle_key_release st k dn).last_head = st.last_head ∧
    (handle_key_release st k dn).last_wheels = st.last_wheels := by
  simp only [handle_key_release]
  repeat' split
  all_goals exact ⟨rfl, rfl, rfl⟩

/-- `update_mouse_driving` touches neither the lift nor the head axis. -/
theorem update_mouse_driving_other (st : RCState) :
    (update_mouse_driving st).1.last_lift = st.last_lift ∧
    (update_mouse_driving st).1.last_head = st.last_head ∧
    (update_mouse_driving st).2.filterMap liftOf = [] ∧
    (update_mouse_driving st).2.filterMap headOf = [] := by
  simp only [update_mouse_driving]
  split <;> simp [liftOf, headOf]

/-- `update_head` touches neither the lift nor the drive axis. -/
theorem update_head_other (st : RCState) :
    (update_head st).1.last_lift = st.last_lift ∧
    (update_head st).1.last_wheels = st.last_wheels ∧
    (update_head st).2.filterMap liftOf = [] ∧
    (update_head st).2.filterMap wheelsOf = [] := by
  simp only [update_head]
  split <;> simp [liftOf, wheelsOf]

/-- `update_lift` touches neither the head nor the drive axis. -/
theorem update_lift_other (st : RCState) :
    (update_lift st).1.last_head = st.last_head ∧
    (update_lift st).1.last_wheels = st.last_wheels ∧
    (update_lift st).2.filterMap headOf = [] ∧
    (update_lift st).2.filterMap wheelsOf = [] := by
  simp only [update_lift]
  split <;> simp [headOf, wheelsOf]

/-- `update_lift` satisfies the lift-axis spec: suppression exactly when the
recomputed velocity equals a truthy (nonzero) `last_lift`. -/
theorem update_lift_axisSpec (st : RCState) :
    AxisSpec (fun s => s.last_lift) liftOf (fun v => decide (v ≠ 0)) st (update_lift st) := by
  unfold AxisSpec
  simp only [update_lift]
  split
  · exact Or.inl ⟨rfl, rfl⟩
  · next hc =>
    refine Or.inr ⟨_, rfl, by simp [liftOf], ?_⟩
    intro w hw ht hvw
    apply hc
    rw [hw, hvw]
    simp [pyTruthyOptInt, ht]

/-- `update_head` satisfies the head-axis spec. -/
theorem update_head_axisSpec (st : RCState) :
    AxisSpec (fun s => s.last_head) headOf (fun v => decide (v ≠ 0)) st (update_head st) := by
  unfold AxisSpec
  simp only [update_head]
  split
  · exact Or.inl ⟨rfl, rfl⟩
  · next hc =>
    refine Or.inr ⟨_, rfl, by simp [headOf], ?_⟩
    intro w hw ht hvw
    apply hc
    rw [hw, hvw]
    simp [pyTruthyOptRat, ht]

/-- `update_mouse_driving` satisfies the drive-axis spec: the last-sent tuple
is always truthy, so suppression happens exactly on an equal recomputation. -/
theorem update_mouse_driving_axisSpec (st : RCState) :
    AxisSpec (fun s => s.last_wheels) wheelsOf (fun _ => true) st (update_mouse_driving st) := by
  unfold AxisSpec
  simp only [update_mouse_driving]
  split
  · exact Or.inl ⟨rfl, rfl⟩
  · next hc =>
    refine Or.inr ⟨_, rfl, by simp [wheelsOf], ?_⟩
    intro w hw _ hvw
    apply hc
    rw [hw, hvw]
    simp [pyTruthyOptWheels]

/-- `motors_drive` leaves the lift and head axes untouched. -/
theorem motors_drive_other (st : RCState) (b : Bool) :
    (motors_drive st b).1.last_lift = st.last_lift ∧
    (motors_drive st b).1.last_head = st.last_head ∧
    (motors_drive st b).2.filterMap liftOf = [] ∧
    (motors_drive st b).2.filterMap headOf = [] := by
  cases b <;> simp [motors_drive, update_mouse_driving_other]

/-- `motors_head` leaves the lift and drive axes untouched. -/
theorem motors_head_other (st : RCState) (b : Bool) :
    (motors_head st b).1.last_lift = st.last_lift ∧
    (motors_head st b).1.last_wheels = st.last_wheels ∧
    (motors_head st b).2.filterMap liftOf = [] ∧
    (motors_head st b).2.filterMap wheelsOf = [] := by
  cases b <;> simp [motors_head, update_head_other]

/-- `motors_lift` leaves the head and drive axes untouched. -/
theorem motors_lift_other (st : RCState) (b : Bool) :
    (motors_lift st b).1.last_head = st.last_head ∧
    (motors_lift st b).1.last_wheels = st.last_wheels ∧
    (motors_lift st b).2.filterMap headOf = [] ∧
    (motors_lift st b).2.filterMap wheelsOf = [] := by
  cases b <;> simp [motors_lift, update_lift_other]

/-- `motors_lift` satisfies the lift-axis spec. -/
theorem motors_lift_axisSpec (st : RCState) (b : Bool) :
    AxisSpec (fun s => s.last_lift) liftOf (fun v => decide (v ≠ 0)) st (motors_lift st b) := by
  cases b
  · exact Or.inl ⟨rfl, rfl⟩
  · exact update_lift_axisSpec st

/-- `motors_head` satisfies the head-axis spec. -/
theorem motors_head_axisSpec (st : RCState) (b : Bool) :
    AxisSpec (fun s => s.last_head) headOf (fun v => decide (v ≠ 0)) st (motors_head st b) := by
  cases b
  · exact Or.inl ⟨rfl, rfl⟩
  · exact update_head_axisSpec st

/-- `motors_drive` satisfies the drive-axis spec. -/
theorem motors_drive_axisSpec (st : RCState) (b : Bool) :
    AxisSpec (fun s => s.last_wheels) wheelsOf (fun _ => true) st (motors_drive st b) := by
  cases b
  · exact Or.inl ⟨rfl, rfl⟩
  · exact update_mouse_driving_axisSpec st

/-- The motor stage of `handle_key` satisfies the lift-axis spec. -/
theorem handle_key_motors_liftSpec (st : RCState) (ud uh ul : Bool) :
    AxisSpec (fun s => s.last_lift) liftOf (fun v => decide (v ≠ 0)) st
      (handle_key_motors st ud uh ul) := by
  have hm := motors_drive_other st ud
  have hh := motors_head_other (motors_drive st ud).1 uh
  have hl := motors_lift_axisSpec (motors_head (motors_drive st ud).1 uh).1 ul
  exact axisSpec_glue hm.1 hm.2.2.1 (axisSpec_glue hh.1 hh.2.2.1 hl)

/-- The motor stage of `handle_key` satisfies the head-axis spec. -/
theorem handle_key_motors_headSpec (st : RCState) (ud uh ul : Bool) :
    AxisSpec (fun s => s.last_head) headOf (fun v => decide (v ≠ 0)) st
      (handle_key_motors st ud uh ul) := by
  have hm := motors_drive_other st ud
  have hh := motors_head_axisSpec (motors_drive st ud).1 uh
  have hl := motors_lift_other (motors_head (motors_drive st ud).1 uh).1 ul
  have hpost := axisSpec_post hh hl.1 hl.2.2.1
  exact axisSpec_glue hm.2.1 hm.2.2.2 hpost

/-- The motor stage of `handle_key` satisfies the drive-axis spec. -/
theorem handle_key_motors_wheelsSpec (st : RCState) (ud uh ul : Bool) :
    AxisSpec (fun s => s.last_wheels) wheelsOf (fun _ => true) st
      (handle_key_motors st ud uh ul) := by
  have hm := motors_drive_axisSpec st ud
  have hh := motors_head_other (motors_drive st ud).1 uh
  have hl := motors_lift_other (motors_head (motors_drive st ud).1 uh).1 ul
  have h1 := axisSpec_post hm hh.2.1 hh.2.2.2
  have h2 := axisSpec_post h1 hl.2.1 hl.2.2.2
  rw [List.append_assoc] at h2
  exact h2

end RC

namespace RC

/-- One whole `handle_key` call satisfies the lift-axis spec. -/
theorem handle_key_liftSpec (st : RCState) (k : Nat) (sh al dn : Bool) :
    AxisSpec (fun s => s.last_lift) liftOf (fun v => decide (v ≠ 0)) st
      (handle_key st k sh al dn) := by
  have hf := handle_key_flags_lasts st k sh al dn
  have hm := handle_key_motors_liftSpec (handle_key_flags st k sh al dn).1
    (handle_key_flags st k sh al dn).2.1 (handle_key_flags st k sh al dn).2.2.1
    (handle_key_flags st k sh al dn).2.2.2
  have hr := handle_key_release_lasts
    (handle_key_motors (handle_key_flags st k sh al dn).1
      (handle_key_flags st k sh al dn).2.1 (handle_key_flags st k sh al dn).2.2.1
      (handle_key_flags st k sh al dn).2.2.2).1 k dn
  exact axisSpec_mapState (axisSpec_base hm hf.1) hr.1

/-- One whole `handle_key` call satisfies the head-axis spec. -/
theorem handle_key_headSpec (st : RCState) (k : Nat) (sh al dn : Bool) :
    AxisSpec (fun s => s.last_head) headOf (fun v => decide (v ≠ 0)) st
      (handle_key st k sh al dn) := by
  have hf := handle_key_flags_lasts st k sh al dn
  have hm := handle_key_motors_headSpec (handle_key_flags st k sh al dn).1
    (handle_key_flags st k sh al dn).2.1 (handle_key_flags st k sh al dn).2.2.1
    (handle_key_flags st k sh al dn).2.2.2
  have hr := handle_key_release_lasts
    (handle_key_motors (handle_key_flags st k sh al dn).1
      (handle_key_flags st k sh al dn).2.1 (handle_key_flags st k sh al dn).2.2.1
      (handle_key_flags st k sh al dn).2.2.2).1 k dn
  exact axisSpec_mapState (axisSpec_base hm hf.2.1) hr.2.1

/-- One whole `handle_key` call satisfies the drive-axis spec. -/
theorem handle_key_wheelsSpec (st : RCState) (k : Nat) (sh al dn : Bool) :
    AxisSpec (fun s => s.last_wheels) wheelsOf (fun _ => true) st
      (handle_key st k sh al dn) := by
  have hf := handle_key_flags_lasts st k sh al dn
  have hm := handle_key_motors_wheelsSpec (handle_key_flags st k sh al dn).1
    (handle_key_flags st k sh al dn).2.1 (handle_key_flags st k sh al dn).2.2.1
    (handle_key_flags st k sh al dn).2.2.2
  have hr := handle_key_release_lasts
    (handle_key_motors (handle_key_flags st k sh al dn).1
      (handle_key_flags st k sh al dn).2.1 (handle_key_flags st k sh al dn).2.2.1
      (handle_key_flags st k sh al dn).2.2.2).1 k dn
  exact axisSpec_mapState (axisSpec_base hm hf.2.2) hr.2.2

/-- Helper: from the per-call axis spec, every event sequence yields an axis
dispatch trace whose adjacent values satisfy `axisP truthy`, together with
the invariant tying the first dispatch after `st` to `st`'s last-sent
value. -/
theorem axis_chain {V : Type} {proj : RCState → Option V} {cmdOf : MotorCmd → Option V}
    {truthy : V → Bool}
    (hstep : ∀ (st : RCState) (k : Nat) (sh al dn : Bool),
      AxisSpec proj cmdOf truthy st (handle_key st k sh al dn)) :
    ∀ (evs : List KeyEvent) (st : RCState),
      List.Chain' (axisP truthy) ((runEvents st evs).2.filterMap cmdOf) ∧
      (∀ w, proj st = some w → ∀ v,
        ((runEvents st evs).2.filterMap cmdOf).head? = some v → axisP truthy w v) := by
  intro evs
  induction evs with
  | nil =>
    intro st
    refine ⟨by simp [runEvents], ?_⟩
    intro w hw v hv
    simp [runEvents] at hv
  | cons e evs ih =>
    intro st
    have hrw : (runEvents st (e :: evs)).2
        = (handle_key st e.key_code e.is_shift_down e.is_alt_down e.is_key_down).2
          ++ (runEvents (handle_key st e.key_code e.is_shift_down e.is_alt_down
                e.is_key_down).1 evs).2 := rfl
    obtain ⟨ihc, ihh⟩ :=
      ih (handle_key st e.key_code e.is_shift_down e.is_alt_down e.is_key_down).1
    rcases hstep st e.key_code e.is_shift_down e.is_alt_down e.is_key_down with
      ⟨h1, h2⟩ | ⟨v, h1, h2, h3⟩
    · constructor
      · rw [hrw, List.filterMap_append, h2, List.nil_append]
        exact ihc
      · intro w hw u hu
        rw [hrw, List.filterMap_append, h2, List.nil_append] at hu
        exact ihh w (h1.trans hw) u hu
    · constructor
      · rw [hrw, List.filterMap_append, h2, List.singleton_append, List.chain'_cons']
        refine ⟨?_, ihc⟩
        intro u hu
        exact ihh v h1 u hu
      · intro w hw u hu
        rw [hrw, List.filterMap_append, h2, List.singleton_append, List.head?_cons] at hu
        obtain rfl : v = u := by injection hu
        by_cases ht : truthy w = true
        · exact Or.inr (h3 w hw ht)
        · exact Or.inl (by revert ht; cases truthy w <;> simp)

/-- C2 (counterexample): the event sequence press-R, release-R, press-Shift
makes the lift axis dispatch the setpoints 4, 0, 0 — the third dispatch
repeats the value last sent on that axis, because the truthiness check
`if self.last_lift and ...` treats the last-sent value 0 as "no previous
value" and fails to suppress. -/
theorem debounce_claim_false :
    ((runEvents initState
        [⟨82, false, false, true⟩, ⟨82, false, false, false⟩,
         ⟨16, true, false, true⟩]).2.filterMap liftOf = [4, 0, 0]) ∧
    ¬ List.Chain' (fun a b => b ≠ a)
        ((runEvents initState
          [⟨82, false, false, true⟩, ⟨82, false, false, false⟩,
           ⟨16, true, false, true⟩]).2.filterMap liftOf) := by
  have h : (runEvents initState
      [⟨82, false, false, true⟩, ⟨82, false, false, false⟩,
       ⟨16, true, false, true⟩]).2.filterMap liftOf = [4, 0, 0] := by decide
  refine ⟨h, ?_⟩
  rw [h]
  intro hch
  rw [List.chain'_cons, List.chain'_cons] at hch
  exact hch.2.1 rfl

/-- C2 (amended): for every key-event sequence from the initial state, on the
drive axis no wheel-parameter tuple is ever dispatched twice in a row; on
the lift and head axes no setpoint is dispatched twice in a row unless the
earlier dispatched value was zero — a zero last-sent value is falsy under
the `if self.last_... and` check, so it never suppresses the re-send.
Whenever a value is dispatched it is recorded as the axis's new last-sent
value. -/
theorem debounce_amended (evs : List KeyEvent) :
    List.Chain' (fun a b => b ≠ a)
      ((runEvents initState evs).2.filterMap wheelsOf) ∧
    List.Chain' (fun a b : Int => a = 0 ∨ b ≠ a)
      ((runEvents initState evs).2.filterMap liftOf) ∧
    List.Chain' (fun a b : Rat => a = 0 ∨ b ≠ a)
      ((runEvents initState evs).2.filterMap headOf) := by
  refine ⟨?_, ?_, ?_⟩
  · have h := (axis_chain handle_key_wheelsSpec evs initState).1
    exact h.imp (fun a b hab => hab.resolve_left (by simp))
  · have h := (axis_chain handle_key_liftSpec evs initState).1
    refine h.imp (fun a b hab => ?_)
    rcases hab with h0 | hne
    · exact Or.inl (not_not.mp (of_decide_eq_false h0))
    · exact Or.inr hne
  · have h := (axis_chain handle_key_headSpec evs initState).1
    refine h.imp (fun a b hab => ?_)
    rcases hab with h0 | hne
    · exact Or.inl (not_not.mp (of_decide_eq_false h0))
    · exact Or.inr hne

end RC
